import Mathlib

/-!
Verification of the tool-invocation gateway of this repository.

The Data Adapter tools are shallowly embedded from
`src/batch1/lab-day4/mcp/googe-adk/local_mcp/fastmcp_server.py`.
Each Python tool becomes a pure Lean function from its arguments and the
current store contents to a `ToolOut`: the returned payload, the store
after the call, and the trace of connection/statement events the call
performed, in order.  SQLite itself is external to the repository; its
behaviour on the statements the tools actually issue is modelled by
`execSelect` / `execInsert` / `execDelete` and the `ioError` field of
`Store` (a database file whose reads fail, as sqlite3 reports via
`sqlite3.Error`).  WHERE-clause conditions are opaque strings in the
source, so their row-level meaning is an abstract evaluator `CondSem`
that the query/delete semantics are parameterized by.
-/

/-- Values stored in database cells (sqlite's integer/text/NULL fragment). -/
inductive Value
  | int (n : Int)
  | text (s : String)
  | null
deriving DecidableEq, Repr

/-- A row as sqlite3.Row exposes it: an ordered mapping column-name → value. -/
abbrev Row := List (String × Value)

/-- One table of the backing store: name, columns as (name, declared type)
pairs in order, rows in insertion order, and the rowid sqlite would hand
to the next inserted row. -/
structure Table where
  name : String
  cols : List (String × String)
  rows : List Row
  nextId : Int
deriving DecidableEq, Repr

/-- The backing store.  `ioError = some e` models a database file whose
reads fail: every statement raises `sqlite3.Error` with message `e`
(`sqlite3.connect` itself is lazy and still succeeds). -/
structure Store where
  tables : List Table
  ioError : Option String
deriving DecidableEq, Repr

/-- Connection/statement events a tool call performs, in order:
`connect` = `get_db_connection()`, `execute stmt params` =
`cursor.execute(stmt, params)`, `commit`/`rollback`/`close` on the
connection. -/
inductive Event
  | connect
  | execute (stmt : String) (params : List Value)
  | commit
  | rollback
  | close
deriving DecidableEq, Repr

/-- Result of one tool call: the Python return value, the store after the
call, and the event trace. -/
structure ToolOut (α : Type) where
  result : α
  store : Store
  trace : List Event
deriving DecidableEq, Repr

/-- Values appearing in the dictionaries the tools return. `pairList`
models the list of `{"name": ..., "type": ...}` column dictionaries of
`get_table_schema` as (name, type) pairs; `val` wraps a database cell
value in a returned row. -/
inductive RVal
  | bool (b : Bool)
  | str (s : String)
  | int (n : Int)
  | strList (l : List String)
  | pairList (l : List (String × String))
  | val (v : Value)
deriving DecidableEq, Repr

/-- A Python dict, insertion-ordered with unique keys. -/
abbrev PyDict := List (String × RVal)

/-- Abstract meaning of a WHERE-clause condition string: whether a given
row satisfies it.  The source passes conditions verbatim to sqlite, whose
SQL engine is outside the repository. -/
abbrev CondSem := String → Row → Bool

/-- The fixed statement `list_db_tables` executes (fastmcp_server.py:52). -/
def masterQuery : String := "SELECT name FROM sqlite_master WHERE type=\x27table\x27;"

/-- The statement `get_table_schema` builds (fastmcp_server.py:71):
the table name is interpolated into the PRAGMA text. -/
def pragmaStmt (table_name : String) : String :=
  "PRAGMA table_info(\x27" ++ table_name ++ "\x27);"

/-- The statement `query_db_table` builds (fastmcp_server.py:96-99):
columns, table name and the (truthy) condition are interpolated. -/
def selectStmt (table_name columns condition : String) : String :=
  "SELECT " ++ columns ++ " FROM " ++ table_name ++
    (if condition = "" then "" else " WHERE " ++ condition) ++ ";"

/-- The statement `insert_data` builds (fastmcp_server.py:130-133): table
name and column names are interpolated, values go through `?` bindings. -/
def insertStmt (table_name : String) (data : List (String × Value)) : String :=
  "INSERT INTO " ++ table_name ++ " (" ++
    String.intercalate ", " (data.map Prod.fst) ++ ") VALUES (" ++
    String.intercalate ", " (data.map (fun _ => "?")) ++ ")"

/-- The statement `delete_data` builds (fastmcp_server.py:174): table name
and condition are interpolated. -/
def deleteStmt (table_name condition : String) : String :=
  "DELETE FROM " ++ table_name ++ " WHERE " ++ condition

/-- Leading and trailing whitespace removed from a character list. -/
def stripChars (l : List Char) : List Char :=
  (((l.dropWhile Char.isWhitespace).reverse.dropWhile Char.isWhitespace).reverse)

/-- Python's `str.strip()` with no argument: leading and trailing
whitespace removed. -/
def pyStrip (s : String) : String := ⟨stripChars s.data⟩

/-- Splitting a character list at commas. -/
def splitCommaChars : List Char → List Char → List (List Char)
  | [], acc => [acc.reverse]
  | ch :: rest, acc =>
    if ch = ',' then acc.reverse :: splitCommaChars rest []
    else splitCommaChars rest (ch :: acc)

/-- Column names mentioned by a comma-separated columns argument. -/
def colNames (columns : String) : List String :=
  (splitCommaChars columns.data []).map (fun l => pyStrip ⟨l⟩)

/-- First column of the columns argument that the table lacks (sqlite
rejects such a SELECT at prepare time); `none` when the argument is `*`
or every named column exists. -/
def badCol (tb : Table) (columns : String) : Option String :=
  if pyStrip columns == "*" then none
  else (colNames columns).find? (fun cn => !(tb.cols.any (fun p => p.1 == cn)))

/-- Projection of one row onto the requested columns. -/
def projectRow (columns : String) (r : Row) : Row :=
  if pyStrip columns == "*" then r
  else (colNames columns).filterMap (fun cn => (r.lookup cn).map (fun v => (cn, v)))

/-- sqlite semantics of the SELECT that `query_db_table` issues. -/
def execSelect (cs : CondSem) (s : Store) (table_name columns condition : String) :
    Except String (List Row) :=
  match s.ioError with
  | some e => .error e
  | none =>
    match s.tables.find? (fun tb => tb.name == table_name) with
    | none => .error ("no such table: " ++ table_name)
    | some tb =>
      match badCol tb columns with
      | some cn => .error ("no such column: " ++ cn)
      | none =>
        let sel := if condition == "" then tb.rows else tb.rows.filter (cs condition)
        .ok (sel.map (projectRow columns))

/-- sqlite semantics of the INSERT that `insert_data` issues: on success,
the new row is appended and `cursor.lastrowid` is the table's next rowid. -/
def execInsert (s : Store) (table_name : String) (data : List (String × Value)) :
    Except String (Store × Int) :=
  match s.ioError with
  | some e => .error e
  | none =>
    match s.tables.find? (fun tb => tb.name == table_name) with
    | none => .error ("no such table: " ++ table_name)
    | some tb =>
      match data.find? (fun kv => !(tb.cols.any (fun p => p.1 == kv.1))) with
      | some kv => .error ("table " ++ table_name ++ " has no column named " ++ kv.1)
      | none =>
        let tb2 : Table := ⟨tb.name, tb.cols, tb.rows ++ [data], tb.nextId + 1⟩
        .ok (⟨s.tables.map (fun x => if x.name == table_name then tb2 else x), s.ioError⟩,
             tb.nextId)

/-- sqlite semantics of the DELETE that `delete_data` issues: rows
satisfying the condition are removed and `cursor.rowcount` counts them. -/
def execDelete (cs : CondSem) (s : Store) (table_name condition : String) :
    Except String (Store × Nat) :=
  match s.ioError with
  | some e => .error e
  | none =>
    match s.tables.find? (fun tb => tb.name == table_name) with
    | none => .error ("no such table: " ++ table_name)
    | some tb =>
      let kept := tb.rows.filter (fun r => !(cs condition r))
      let n := tb.rows.countP (fun r => cs condition r)
      let tb2 : Table := ⟨tb.name, tb.cols, kept, tb.nextId⟩
      .ok (⟨s.tables.map (fun x => if x.name == table_name then tb2 else x), s.ioError⟩, n)

/-- `PRAGMA table_info` output: the table's (name, type) column records,
empty when the table does not exist (sqlite raises no error there). -/
def tableInfo (s : Store) (table_name : String) : List (String × String) :=
  match s.tables.find? (fun tb => tb.name == table_name) with
  | some tb => tb.cols
  | none => []

/-- A fetched row rendered as the dict `dict(row)` produces. -/
def rowToDict (r : Row) : PyDict := r.map (fun p => (p.1, RVal.val p.2))

/-- `list_db_tables` (fastmcp_server.py:38-62).  The `try` block closes the
connection just before returning; on `sqlite3.Error` the `except` arm
returns the failure dict without closing (there is no `finally`). -/
def list_db_tables (dummy_param : String) (s : Store) : ToolOut PyDict :=
  match s.ioError with
  | some e =>
    ⟨[("success", .bool false),
      ("message", .str ("Error listing tables: " ++ e)),
      ("tables", .strList [])],
     s, [.connect, .execute masterQuery []]⟩
  | none =>
    ⟨[("success", .bool true),
      ("message", .str "Tables listed successfully."),
      ("tables", .strList (s.tables.map (fun tb => tb.name)))],
     s, [.connect, .execute masterQuery [], .close]⟩

/-- `get_table_schema` (fastmcp_server.py:65-81).  The connection is closed
before the empty-schema check, so the `ValueError` path has closed it; a
`sqlite3.Error` during execute leaves it open (no `finally`). -/
def get_table_schema (table_name : String) (s : Store) : ToolOut PyDict :=
  match s.ioError with
  | some e =>
    ⟨[("success", .bool false), ("message", .str e)],
     s, [.connect, .execute (pragmaStmt table_name) []]⟩
  | none =>
    let info := tableInfo s table_name
    if info = [] then
      ⟨[("success", .bool false),
        ("message", .str ("Table \x27" ++ table_name ++
          "\x27 not found or no schema information."))],
       s, [.connect, .execute (pragmaStmt table_name) [], .close]⟩
    else
      ⟨[("table_name", .str table_name), ("columns", .pairList info)],
       s, [.connect, .execute (pragmaStmt table_name) [], .close]⟩

/-- `query_db_table` (fastmcp_server.py:84-111).  The connection is
acquired before the `try`, the statement is interpolated from the
arguments, and the `finally` closes the connection on both arms. -/
def query_db_table (cs : CondSem) (table_name columns condition : String)
    (s : Store) : ToolOut (List PyDict) :=
  let query := selectStmt table_name columns condition
  match execSelect cs s table_name columns condition with
  | .ok rows =>
    ⟨rows.map rowToDict, s, [.connect, .execute query [], .close]⟩
  | .error e =>
    ⟨[[("success", .bool false),
       ("message", .str ("Error querying table \x27" ++ table_name ++ "\x27: " ++ e))]],
     s, [.connect, .execute query [], .close]⟩

/-- `insert_data` (fastmcp_server.py:114-152).  Empty data is rejected
before any connection is made; otherwise the statement text is built from
the table name and the data's keys, the values are passed as bindings,
and the call commits on success / rolls back on `sqlite3.Error`, the
`finally` closing the connection on both arms. -/
def insert_data (table_name : String) (data : List (String × Value))
    (s : Store) : ToolOut PyDict :=
  if data = [] then
    ⟨[("success", .bool false), ("message", .str "No data provided for insertion.")],
     s, []⟩
  else
    let query := insertStmt table_name data
    let values := data.map Prod.snd
    match execInsert s table_name data with
    | .ok (s2, rid) =>
      ⟨[("success", .bool true),
        ("message", .str ("Data inserted successfully. Row ID: " ++ toString rid)),
        ("row_id", .int rid)],
       s2, [.connect, .execute query values, .commit, .close]⟩
    | .error e =>
      ⟨[("success", .bool false),
        ("message", .str ("Error inserting data into table \x27" ++ table_name ++
          "\x27: " ++ e))],
       s, [.connect, .execute query values, .rollback, .close]⟩

/-- The guard of `delete_data` (fastmcp_server.py:166):
`not condition or not condition.strip()`. -/
def emptyCond (condition : String) : Bool :=
  condition == "" || pyStrip condition == ""

/-- `delete_data` (fastmcp_server.py:155-193).  An empty or whitespace-only
condition is rejected before any connection is made; otherwise the
statement text is built from the table name and condition, and the call
commits on success / rolls back on `sqlite3.Error`, the `finally` closing
the connection on both arms. -/
def delete_data (cs : CondSem) (table_name condition : String)
    (s : Store) : ToolOut PyDict :=
  if emptyCond condition then
    ⟨[("success", .bool false),
      ("message", .str "Deletion condition cannot be empty. This is a safety measure.")],
     s, []⟩
  else
    let query := deleteStmt table_name condition
    match execDelete cs s table_name condition with
    | .ok (s2, n) =>
      ⟨[("success", .bool true),
        ("message", .str (toString n ++ " row(s) deleted successfully from table \x27" ++
          table_name ++ "\x27.")),
        ("rows_deleted", .int n)],
       s2, [.connect, .execute query [], .commit, .close]⟩
    | .error e =>
      ⟨[("success", .bool false),
        ("message", .str ("Error deleting data from table \x27" ++ table_name ++
          "\x27: " ++ e))],
       s, [.connect, .execute query [], .rollback, .close]⟩

/-- A trace is connection-balanced when it closes as many connections as
it opens (each call opens at most one). -/
def connBalanced (tr : List Event) : Bool :=
  tr.count .connect == tr.count .close

/-- Texts of the statements a trace executed, in order. -/
def execedStmts (tr : List Event) : List String :=
  tr.filterMap (fun ev => match ev with | .execute q _ => some q | _ => none)

/-- Parameter bindings of the statements a trace executed, in order. -/
def execedParams (tr : List Event) : List (List Value) :=
  tr.filterMap (fun ev => match ev with | .execute _ ps => some ps | _ => none)

/-- Row count of every table of the store, by table name. -/
def rowCounts (s : Store) : List (String × Nat) :=
  s.tables.map (fun tb => (tb.name, tb.rows.length))

/-- Failure kinds of the spec's result envelope (§7 taxonomy). -/
inductive FailureKind
  | protocolError
  | invalidArgument
  | notFound
  | handlerError
  | timeout
  | unavailable
deriving DecidableEq, Repr

/-- The spec's CallResult: `Success{payload}` or `Failure{kind, message}`. -/
inductive CallResult
  | success (payload : PyDict)
  | failure (kind : FailureKind) (message : String)
deriving DecidableEq, Repr

/-- Whether a call result is a Success. -/
def isSuccess : CallResult → Bool
  | .success _ => true
  | .failure _ _ => false

/-- One parameter of a tool's input schema. -/
structure ParamSpec where
  name : String
  required : Bool
deriving DecidableEq, Repr

/-- Input schema of the registered tool `list_db_tables`, read off its
declaration (fastmcp_server.py:39): `dummy_param: str` has no default, so
the generated schema marks it required. -/
def listDbTablesParams : List ParamSpec := [⟨"dummy_param", true⟩]

/-- Modelled from the spec: tool-server argument validation (§4.3) — the
FastMCP server that validates a call's argument mapping against the
declared schema lives in the external fastmcp package, not under src/.
Returns the first required parameter the argument mapping lacks. -/
def missingRequired (ps : List ParamSpec) (args : List (String × String)) :
    Option String :=
  (ps.find? (fun p => p.required && !(args.any (fun a => a.1 == p.name)))).map
    (fun p => p.name)

/-- Modelled from the spec: the server-side handling of a call to the
registered tool `list_db_tables` (§4.3) — validation against the schema,
then invocation of the src handler; a schema mismatch yields
`Failure{kind=InvalidArgument}` without invoking the handler. -/
def callListDbTables (args : List (String × String)) (s : Store) :
    CallResult × Store :=
  match missingRequired listDbTablesParams args with
  | some p => (.failure .invalidArgument ("missing required argument: " ++ p), s)
  | none =>
    let out := list_db_tables ((args.lookup "dummy_param").getD "") s
    (.success out.result, out.store)

/-- One configured server of the Multi-Server Client: its id, whether the
configured endpoint is reachable, and the tool names it exposes. -/
structure ServerDescriptor where
  id : String
  reachable : Bool
  tools : List String
deriving DecidableEq, Repr

/-- An open connection of the Multi-Server Client. -/
structure ServerConn where
  id : String
  tools : List String
deriving DecidableEq, Repr

/-- The handle `connect` returns: the connections that were established. -/
structure MCHandle where
  conns : List ServerConn
deriving DecidableEq, Repr

/-- Modelled from the spec: opening one server connection (§4.4) — the
Multi-Server Client implementation (MultiServerMCPClient of
langchain_mcp_adapters) is not under src/; only its caller
src/day4/mcp/mcp_client.py is.  An unreachable endpoint fails with a
connection error, a reachable one yields a connection exposing the
server's tools. -/
def connectOne (d : ServerDescriptor) : Except String ServerConn :=
  if d.reachable then .ok ⟨d.id, d.tools⟩
  else .error ("failed to connect to server " ++ d.id)

/-- Modelled from the spec: `connect(descriptors) → handle` (§4.4) — a
connection failure for one server does not abort the others; the handle
keeps exactly the connections that succeeded. -/
def connectServers (ds : List ServerDescriptor) : MCHandle :=
  ⟨ds.filterMap (fun d => (connectOne d).toOption)⟩

/-- Modelled from the spec: `catalog()` (§4.4) — the merged tool list of
every connected server, each entry tagged with its owning server id. -/
def mergedCatalog (h : MCHandle) : List (String × String) :=
  (h.conns.map (fun c => c.tools.map (fun tl => (c.id, tl)))).flatten

/-- The condition evaluator under which no row matches any condition. -/
def condNone : CondSem := fun _ _ => false

/-- The empty store (fresh database file, readable). -/
def emptyStore : Store := ⟨[], none⟩

/-- A readable store with one `items` table holding one row. -/
def st1 : Store :=
  ⟨[⟨"items", [("id", "INTEGER"), ("name", "TEXT")],
     [[("id", .int 1), ("name", .text "a")]], 2⟩], none⟩

/-- A readable store whose `items` table will hand out rowid 5 next (four
rows were inserted before). -/
def st4 : Store :=
  ⟨[⟨"items", [("id", "INTEGER"), ("name", "TEXT")],
     [[("id", .int 1), ("name", .text "a")],
      [("id", .int 2), ("name", .text "b")],
      [("id", .int 3), ("name", .text "c")],
      [("id", .int 4), ("name", .text "d")]], 5⟩], none⟩

/-- A store whose database file reads fail (sqlite3 raises a disk error
on every statement). -/
def errStore : Store := ⟨[], some "disk I/O error"⟩

/-- `st1` after inserting `{"name": "x"}` into `items`. -/
def st1Ins : Store :=
  ⟨[⟨"items", [("id", "INTEGER"), ("name", "TEXT")],
     [[("id", .int 1), ("name", .text "a")], [("name", .text "x")]], 3⟩], none⟩

/-- A reachable server descriptor exposing two tools. -/
def reachableSrv : ServerDescriptor := ⟨"math", true, ["add", "multiply"]⟩

/-- An unreachable server descriptor. -/
def deadSrv : ServerDescriptor := ⟨"weather", false, ["get_weather"]⟩

/-- Helper: `query_db_table` produces the same trace on both arms —
connect, one execute of the interpolated statement, close. -/
theorem query_db_table_trace (cs : CondSem) (t cols c : String) (s : Store) :
    (query_db_table cs t cols c s).trace =
      [.connect, .execute (selectStmt t cols c) [], .close] := by
  cases h : execSelect cs s t cols c <;> simp [query_db_table, h]

/-- Claim C1: for every table name and every condition that is empty or
whitespace-only, `delete_data` returns the fixed safety-measure failure
payload, performs no connection or statement event at all, and leaves
every table's row count unchanged. -/
theorem delete_data_empty_condition_rejected (cs : CondSem) (t c : String)
    (s : Store) (h : pyStrip c = "") :
    delete_data cs t c s =
      ⟨[("success", .bool false),
        ("message", .str "Deletion condition cannot be empty. This is a safety measure.")],
       s, []⟩ ∧
    rowCounts (delete_data cs t c s).store = rowCounts s := by
  have hg : emptyCond c = true := by simp [emptyCond, h]
  refine ⟨?_, ?_⟩ <;> simp [delete_data, hg]

/-- Witness for C1 at the whitespace-only condition `"   "` on a
one-row store. -/
theorem delete_data_empty_condition_rejected_witness :
    delete_data condNone "items" "   " st1 =
      ⟨[("success", .bool false),
        ("message", .str "Deletion condition cannot be empty. This is a safety measure.")],
       st1, []⟩ ∧
    rowCounts (delete_data condNone "items" "   " st1).store = rowCounts st1 :=
  delete_data_empty_condition_rejected condNone "items" "   " st1 (by decide)

/-- Claim C9: for every table name and store, `insert_data` with an empty
argument mapping returns the fixed failure payload with no connection or
statement event and an unchanged store. -/
theorem insert_data_empty_data_rejected (t : String) (s : Store) :
    insert_data t [] s =
      ⟨[("success", .bool false), ("message", .str "No data provided for insertion.")],
       s, []⟩ := by
  simp [insert_data]

/-- Claim C10: the result of `list_db_tables` is independent of the
required `dummy_param` argument — any two argument values give the same
payload, store and trace. -/
theorem list_db_tables_independent_of_dummy_param (d1 d2 : String) (s : Store) :
    list_db_tables d1 s = list_db_tables d2 s := rfl

/-- Counterexample to claim C2: calling the registered tool
`list_db_tables` with no arguments fails schema validation (its declared
`dummy_param` is required), yielding `Failure{kind=InvalidArgument}`
instead of the expected Success. -/
theorem list_db_tables_no_arguments_fails :
    callListDbTables [] emptyStore =
      (.failure .invalidArgument "missing required argument: dummy_param", emptyStore) ∧
    isSuccess (callListDbTables [] emptyStore).1 = false := by
  exact ⟨rfl, rfl⟩

/-- Claim C2 as amended: calling the registered tool `list_db_tables`
with a `dummy_param` argument on an empty store succeeds and returns the
empty list of table names. -/
theorem list_db_tables_with_dummy_param_empty_store (v : String) :
    callListDbTables [("dummy_param", v)] emptyStore =
      (.success [("success", .bool true),
                 ("message", .str "Tables listed successfully."),
                 ("tables", .strList [])], emptyStore) := rfl

/-- Claim C7: a read query whose condition matches no rows returns the
empty sequence of rows with the store untouched — a Success, not a
Failure — while a store error returns the non-empty error-marker
sequence, so the two are distinguishable. -/
theorem query_no_match_returns_empty_success (cs : CondSem)
    (t cols c : String) (s sErr : Store) (tb : Table) (e : String)
    (h1 : s.ioError = none)
    (h2 : s.tables.find? (fun x => x.name == t) = some tb)
    (h3 : badCol tb cols = none)
    (h4 : c ≠ "")
    (h5 : tb.rows.filter (cs c) = []) :
    query_db_table cs t cols c s =
      ⟨[], s, [.connect, .execute (selectStmt t cols c) [], .close]⟩ ∧
    (sErr.ioError = some e →
      (query_db_table cs t cols c sErr).result =
        [[("success", .bool false),
          ("message", .str ("Error querying table \x27" ++ t ++ "\x27: " ++ e))]]) := by
  have hc : (c == "") = false := beq_eq_false_iff_ne.mpr h4
  have hsel : execSelect cs s t cols c = .ok [] := by
    simp [execSelect, h1, h2, h3, hc, h5]
  refine ⟨by simp [query_db_table, hsel], fun h6 => ?_⟩
  have hsel2 : execSelect cs sErr t cols c = .error e := by
    simp [execSelect, h6]
  simp [query_db_table, hsel2]

/-- Witness for C7: the one-row `items` table under the evaluator where
no row matches, and the disk-error store for the distinguishability
part. -/
theorem query_no_match_returns_empty_success_witness :
    query_db_table condNone "items" "*" "id = 99" st1 =
      ⟨[], st1, [.connect, .execute (selectStmt "items" "*" "id = 99") [], .close]⟩ ∧
    (query_db_table condNone "items" "*" "id = 99" errStore).result =
      [[("success", .bool false),
        ("message", .str "Error querying table \x27items\x27: disk I/O error")]] := by
  have h := query_no_match_returns_empty_success condNone "items" "*" "id = 99"
    st1 errStore
    ⟨"items", [("id", "INTEGER"), ("name", "TEXT")],
     [[("id", .int 1), ("name", .text "a")]], 2⟩
    "disk I/O error" rfl rfl (by decide) (by decide) rfl
  exact ⟨h.1, h.2 rfl⟩

/-- Counterexample to claim C3: on a store whose reads fail,
`list_db_tables` takes the `except sqlite3.Error` exit path, which
returns without closing the acquired connection — the trace opens a
connection and never closes it. -/
theorem list_db_tables_leaks_connection_on_store_error :
    (list_db_tables "x" errStore).trace = [.connect, .execute masterQuery []] ∧
    connBalanced (list_db_tables "x" errStore).trace = false :=
  ⟨rfl, rfl⟩

/-- Helper: `insert_data` closes every connection it opens, on both the
commit and the rollback arm. -/
theorem insert_data_balanced (t : String) (d : List (String × Value)) (s : Store) :
    connBalanced (insert_data t d s).trace = true := by
  by_cases hd : d = []
  · subst hd; rfl
  · cases h : execInsert s t d with
    | ok p => cases p with
      | mk s2 rid => simp [insert_data, hd, h]; rfl
    | error e => simp [insert_data, hd, h]; rfl

/-- Helper: `delete_data` closes every connection it opens, on both the
commit and the rollback arm. -/
theorem delete_data_balanced (cs : CondSem) (t c : String) (s : Store) :
    connBalanced (delete_data cs t c s).trace = true := by
  by_cases hg : emptyCond c = true
  · simp [delete_data, hg]; rfl
  · have hg2 : emptyCond c = false := by
      cases hcv : emptyCond c
      · rfl
      · exact absurd hcv hg
    cases h : execDelete cs s t c with
    | ok p => cases p with
      | mk s2 n => simp [delete_data, hg2, h]; rfl
    | error e => simp [delete_data, hg2, h]; rfl

/-- Claim C3 as amended: `query_db_table`, `insert_data` and
`delete_data` release every acquired connection on every exit path
(their `finally` blocks); `list_db_tables` and `get_table_schema`
release it on every path of an error-free store, but when the store
operation raises an error their `except` arms return with the connection
still open. -/
theorem connection_release_discipline (cs : CondSem) (dummy t cols c : String)
    (d : List (String × Value)) (s sErr : Store) (e : String) :
    connBalanced (query_db_table cs t cols c s).trace = true ∧
    connBalanced (insert_data t d s).trace = true ∧
    connBalanced (delete_data cs t c s).trace = true ∧
    (s.ioError = none →
      connBalanced (list_db_tables dummy s).trace = true ∧
      connBalanced (get_table_schema t s).trace = true) ∧
    (sErr.ioError = some e →
      (list_db_tables dummy sErr).trace = [.connect, .execute masterQuery []] ∧
      (get_table_schema t sErr).trace = [.connect, .execute (pragmaStmt t) []]) := by
  refine ⟨?_, insert_data_balanced t d s, delete_data_balanced cs t c s, ?_, ?_⟩
  · rw [connBalanced, query_db_table_trace]; rfl
  · intro hio
    constructor
    · simp [list_db_tables, hio]; rfl
    · simp only [get_table_schema, hio]
      by_cases hi : tableInfo s t = [] <;> simp [hi] <;> rfl
  · intro hio
    exact ⟨by simp [list_db_tables, hio], by simp [get_table_schema, hio]⟩

/-- Witness for C3's amended statement: the balanced traces on the
one-row store, and the unclosed traces on the disk-error store. -/
theorem connection_release_discipline_witness :
    connBalanced (query_db_table condNone "items" "*" "id = 1" st1).trace = true ∧
    connBalanced (insert_data "items" [("name", .text "x")] st1).trace = true ∧
    connBalanced (delete_data condNone "items" "id = 1" st1).trace = true ∧
    connBalanced (list_db_tables "x" st1).trace = true ∧
    connBalanced (get_table_schema "items" st1).trace = true ∧
    (list_db_tables "x" errStore).trace = [.connect, .execute masterQuery []] ∧
    (get_table_schema "items" errStore).trace =
      [.connect, .execute (pragmaStmt "items") []] := by
  obtain ⟨h1, h2, h3, h4, h5⟩ :=
    connection_release_discipline condNone "x" "items" "*" "id = 1"
      [("name", .text "x")] st1 errStore "disk I/O error"
  exact ⟨h1, h2, h3, (h4 rfl).1, (h4 rfl).2, (h5 rfl).1, (h5 rfl).2⟩

/-- Counterexample to claim C4: two `query_db_table` calls that differ
only in the condition argument submit different statement texts — the
condition is interpolated into the statement, not passed as a binding. -/
theorem query_statement_text_depends_on_condition :
    execedStmts (query_db_table condNone "items" "*" "id = 1" st1).trace ≠
      execedStmts (query_db_table condNone "items" "*" "id = 2" st1).trace := by
  rw [query_db_table_trace, query_db_table_trace]
  decide

/-- Helper: for non-empty data, `insert_data` executes exactly one
statement, built from the table name and the data's keys, with the
data's values as its parameter bindings. -/
theorem insert_data_execed (t : String) (d : List (String × Value)) (s : Store)
    (hd : d ≠ []) :
    execedStmts (insert_data t d s).trace = [insertStmt t d] ∧
    execedParams (insert_data t d s).trace = [d.map Prod.snd] := by
  cases h : execInsert s t d with
  | ok p => cases p with
    | mk s2 rid =>
      refine ⟨?_, ?_⟩ <;> simp [insert_data, hd, h, execedStmts, execedParams]
  | error e =>
      refine ⟨?_, ?_⟩ <;> simp [insert_data, hd, h, execedStmts, execedParams]

/-- Claim C4 as amended: only `insert_data` keeps its statement text
independent of the argument *values* — the values travel as parameter
bindings and the statement text depends only on the table name and the
data's keys; for the other operations (and for table/column names here)
the caller-supplied strings are interpolated into the statement text. -/
theorem insert_statement_independent_of_values (t : String)
    (d1 d2 : List (String × Value)) (s : Store)
    (hk : d1.map Prod.fst = d2.map Prod.fst) :
    execedStmts (insert_data t d1 s).trace =
      execedStmts (insert_data t d2 s).trace ∧
    execedParams (insert_data t d1 s).trace =
      (if d1 = [] then [] else [d1.map Prod.snd]) := by
  have hstmt : insertStmt t d1 = insertStmt t d2 := by
    have hlen : d1.length = d2.length := by
      have h := congrArg List.length hk
      simpa using h
    have hph : d1.map (fun _ => "?") = d2.map (fun _ => "?") := by
      rw [List.map_const', List.map_const', hlen]
    rw [insertStmt, insertStmt, hk, hph]
  by_cases h1 : d1 = []
  · have h2 : d2 = [] := by
      rw [h1] at hk
      exact List.map_eq_nil_iff.mp hk.symm
    subst h1; subst h2
    exact ⟨rfl, rfl⟩
  · have h2 : d2 ≠ [] := by
      intro h2e
      rw [h2e] at hk
      exact h1 (List.map_eq_nil_iff.mp hk)
    rw [(insert_data_execed t d1 s h1).1, (insert_data_execed t d2 s h2).1,
        (insert_data_execed t d1 s h1).2, hstmt]
    exact ⟨rfl, by simp [h1]⟩

/-- Witness for C4's amended statement: two inserts with the same key and
different values share the statement text, and the values appear as
bindings. -/
theorem insert_statement_independent_of_values_witness :
    execedStmts (insert_data "items" [("name", Value.text "x")] st1).trace =
      execedStmts (insert_data "items" [("name", Value.text "y")] st1).trace ∧
    execedParams (insert_data "items" [("name", Value.text "x")] st1).trace =
      [[Value.text "x"]] :=
  insert_statement_independent_of_values "items"
    [("name", Value.text "x")] [("name", Value.text "y")] st1 rfl

/-- Counterexample to claim C5: a successful `insert_data` commits, but
its result carries the new row's id (`row_id`, here 5), not the
affected-row count — no component of the result equals the one row
affected. -/
theorem insert_result_lacks_affected_count :
    (insert_data "items" [("name", Value.text "x")] st4).result =
      [("success", RVal.bool true),
       ("message", RVal.str "Data inserted successfully. Row ID: 5"),
       ("row_id", RVal.int 5)] ∧
    ((insert_data "items" [("name", Value.text "x")] st4).result.all
      (fun kv => !(kv.2 == RVal.int 1))) = true := by
  exact ⟨rfl, rfl⟩

/-- Claim C5 as amended: on success `insert_data` commits and returns the
new row's id while `delete_data` commits and returns the affected-row
count; on a store failure both roll back before the `finally` releases
the connection and return the failure as a result value with the store
unchanged. -/
theorem mutating_calls_commit_or_rollback (cs : CondSem) (t c : String)
    (d : List (String × Value)) (s s2 s3 : Store) (rid : Int) (n : Nat)
    (e1 e2 : String) :
    (d ≠ [] → execInsert s t d = .ok (s2, rid) →
      insert_data t d s =
        ⟨[("success", .bool true),
          ("message", .str ("Data inserted successfully. Row ID: " ++ toString rid)),
          ("row_id", .int rid)],
         s2, [.connect, .execute (insertStmt t d) (d.map Prod.snd), .commit, .close]⟩) ∧
    (d ≠ [] → execInsert s t d = .error e1 →
      insert_data t d s =
        ⟨[("success", .bool false),
          ("message", .str ("Error inserting data into table \x27" ++ t ++
            "\x27: " ++ e1))],
         s, [.connect, .execute (insertStmt t d) (d.map Prod.snd), .rollback, .close]⟩) ∧
    (emptyCond c = false → execDelete cs s t c = .ok (s3, n) →
      delete_data cs t c s =
        ⟨[("success", .bool true),
          ("message", .str (toString n ++ " row(s) deleted successfully from table \x27" ++
            t ++ "\x27.")),
          ("rows_deleted", .int n)],
         s3, [.connect, .execute (deleteStmt t c) [], .commit, .close]⟩) ∧
    (emptyCond c = false → execDelete cs s t c = .error e2 →
      delete_data cs t c s =
        ⟨[("success", .bool false),
          ("message", .str ("Error deleting data from table \x27" ++ t ++
            "\x27: " ++ e2))],
         s, [.connect, .execute (deleteStmt t c) [], .rollback, .close]⟩) := by
  refine ⟨fun hd h => ?_, fun hd h => ?_, fun hg h => ?_, fun hg h => ?_⟩
  · simp [insert_data, hd, h]
  · simp [insert_data, hd, h]
  · simp [delete_data, hg, h]
  · simp [delete_data, hg, h]

/-- Witness for C5's amended statement: a committing insert and delete on
the one-row store, and a rolled-back insert and delete on the disk-error
store. -/
theorem mutating_calls_commit_or_rollback_witness :
    insert_data "items" [("name", Value.text "x")] st1 =
      ⟨[("success", .bool true),
        ("message", .str "Data inserted successfully. Row ID: 2"),
        ("row_id", .int 2)],
       st1Ins,
       [.connect, .execute (insertStmt "items" [("name", Value.text "x")])
          [Value.text "x"], .commit, .close]⟩ ∧
    insert_data "items" [("name", Value.text "x")] errStore =
      ⟨[("success", .bool false),
        ("message", .str "Error inserting data into table \x27items\x27: disk I/O error")],
       errStore,
       [.connect, .execute (insertStmt "items" [("name", Value.text "x")])
          [Value.text "x"], .rollback, .close]⟩ ∧
    delete_data condNone "items" "id = 99" st1 =
      ⟨[("success", .bool true),
        ("message", .str "0 row(s) deleted successfully from table \x27items\x27."),
        ("rows_deleted", .int 0)],
       st1, [.connect, .execute (deleteStmt "items" "id = 99") [], .commit, .close]⟩ ∧
    delete_data condNone "items" "id = 99" errStore =
      ⟨[("success", .bool false),
        ("message", .str "Error deleting data from table \x27items\x27: disk I/O error")],
       errStore,
       [.connect, .execute (deleteStmt "items" "id = 99") [], .rollback, .close]⟩ :=
  ⟨(mutating_calls_commit_or_rollback condNone "items" "id = 99"
      [("name", Value.text "x")] st1 st1Ins st1 2 0 "" "").1 (by decide) rfl,
   (mutating_calls_commit_or_rollback condNone "items" "id = 99"
      [("name", Value.text "x")] errStore errStore errStore 0 0 "disk I/O error"
      "").2.1 (by decide) rfl,
   (mutating_calls_commit_or_rollback condNone "items" "id = 99"
      [("name", Value.text "x")] st1 st1 st1 0 0 "" "").2.2.1 (by decide) rfl,
   (mutating_calls_commit_or_rollback condNone "items" "id = 99"
      [("name", Value.text "x")] errStore errStore errStore 0 0 ""
      "disk I/O error").2.2.2 (by decide) rfl⟩

/-- Helper: the merged catalog of the connections `connectServers`
establishes is exactly the reachable descriptors' tools, each tagged with
its owning server id. -/
theorem mergedCatalog_connectServers (ds : List ServerDescriptor) :
    mergedCatalog (connectServers ds) =
      ((ds.filter (fun x => x.reachable)).map
        (fun x => x.tools.map (fun tl => (x.id, tl)))).flatten := by
  induction ds with
  | nil => rfl
  | cons x xs ih =>
    cases hx : x.reachable with
    | false =>
      simp only [connectServers, mergedCatalog, List.filterMap_cons, connectOne, hx,
        if_neg Bool.false_ne_true, Except.toOption, List.filter_cons] at ih ⊢
      simpa [hx] using ih
    | true =>
      simp only [connectServers, mergedCatalog, List.filterMap_cons, connectOne, hx,
        if_pos rfl, Except.toOption, List.filter_cons, List.map_cons,
        List.flatten_cons] at ih ⊢
      simpa [hx] using ih

/-- Claim C6: when at least one configured server is unreachable, its
individual connection fails, yet `connectServers` still returns a handle
and the merged catalog is exactly the reachable servers' tools. -/
theorem connect_partial_availability (ds : List ServerDescriptor)
    (d : ServerDescriptor) (hmem : d ∈ ds) (hun : d.reachable = false) :
    connectOne d = .error ("failed to connect to server " ++ d.id) ∧
    mergedCatalog (connectServers ds) =
      ((ds.filter (fun x => x.reachable)).map
        (fun x => x.tools.map (fun tl => (x.id, tl)))).flatten := by
  refine ⟨?_, mergedCatalog_connectServers ds⟩
  simp [connectOne, hun]

/-- Witness for C6: one reachable and one unreachable server — the dead
server's connection fails, the handle's catalog holds exactly the
reachable server's tools. -/
theorem connect_partial_availability_witness :
    connectOne deadSrv = .error "failed to connect to server weather" ∧
    mergedCatalog (connectServers [reachableSrv, deadSrv]) =
      [("math", "add"), ("math", "multiply")] :=
  connect_partial_availability [reachableSrv, deadSrv] deadSrv (by decide) rfl
